import Mathlib

/-!
Verification of the workflow-progression hook scripts.

The repository consists of three Python hook scripts that together detect
stage transitions of an automated coding workflow from a JSONL transcript
log:

- `src/hooks/post_todowrite.py`   (stage 1 -> 2, task-list completion)
- `src/hooks/post_diagnostics.py` (stage 2 -> 3, diagnostics clean)
- `src/hooks/post_code_review.py` (stage 3 -> 4, reviewer invoked)

This file gives a shallow embedding of those scripts.  Hook request
payloads and transcript records are modelled as typed structures whose
fields are `Option`s (a field that is missing from the JSON carries
`none`, mirroring `dict.get`).  A transcript is a list of lines; each
line is modelled by the outcome of decoding it, because the scripts
branch on exactly these outcomes:

- `Line.blank`     : a whitespace-only line (skipped before decoding);
- `Line.malformed` : `json.loads` raises `JSONDecodeError` (skipped by
                     the per-line `except` clause);
- `Line.scalar`    : `json.loads` succeeds but yields a non-object JSON
                     value (an `int`, `str`, `list`, ...); a subsequent
                     `entry.get(...)` on it raises `AttributeError`,
                     which none of the `except` clauses catch;
- `Line.obj e`     : `json.loads` yields an object, decoded into `e`.

The standard-input payload of each script is an `Option HookInput`
(`none` = `json.load(sys.stdin)` raised), and the file system is a
function from paths to `Option (List Line)` (`none` = the path does not
exist or reading it raises `IOError`/`OSError`).  Each `main` is then a
pure function from these two inputs to a `ProcOut`: the process exit
code together with what was printed on standard output (`none` = no
JSON response was printed, as happens when the script exits early or
dies with an uncaught exception).
-/

set_option maxHeartbeats 1000000

/-- One task of a task-list snapshot; `status` is the `"status"` field of a
todo item (`none` when the field is absent). -/
structure Todo where
  status : Option String := none
  deriving DecidableEq

/-- The `"input"` object of a tool-use record, restricted to the fields the
scripts read: `subagent_type` (for `Task` invocations) and `todos` (for
`TodoWrite` invocations). -/
structure ToolInput where
  subagent_type : Option String := none
  todos : Option (List Todo) := none
  deriving DecidableEq

/-- One decoded transcript record (a JSON object line), restricted to the
fields the scripts read. -/
structure Entry where
  type : Option String := none
  name : Option String := none
  input : ToolInput := {}
  deriving DecidableEq

/-- One diagnostic finding of a structured (`get_diagnostics`) result. -/
structure Finding where
  severity : Option Int := none
  deriving DecidableEq

/-- The `"tool_response"` object of a hook request.  The structured source
carries `diagnostics`; the unstructured (Bash) source carries `exit_code`
and `output`. -/
structure ToolResponse where
  diagnostics : Option (List Finding) := none
  exit_code : Option Int := none
  output : Option String := none
  deriving DecidableEq

/-- The decoded standard-input payload of a hook invocation. -/
structure HookInput where
  tool_name : Option String := none
  tool_input : ToolInput := {}
  tool_response : ToolResponse := {}
  transcript_path : Option String := none
  deriving DecidableEq

/-- The decode outcome of one transcript line (see the module docstring). -/
inductive Line where
  | blank
  | malformed
  | scalar
  | obj (e : Entry)
  deriving DecidableEq

/-- A decoded JSON value kept by `post_code_review.parse_transcript_recent`,
which appends every successfully decoded value, object or not. -/
inductive JVal where
  | scalar
  | obj (e : Entry)
  deriving DecidableEq

/-- The `"hookSpecificOutput"` annotation of a triggering response.  Fields
that a given script does not set carry `none`. -/
structure HookOutput where
  hookEventName : String
  stage : Option String := none
  diagnosticsTool : Option String := none
  subagentType : Option String := none
  additionalContext : Option String := none
  completedTasks : Option Nat := none
  deriving DecidableEq

/-- The structured response printed on standard output: the empty object
`{}` or a block-and-inject object. -/
inductive Decision where
  | empty
  | block (reason : String) (hookSpecificOutput : HookOutput)
  deriving DecidableEq

/-- The observable outcome of one hook process: its exit code and the JSON
response printed on standard output, if any. -/
structure ProcOut where
  exitCode : Nat
  stdout : Option Decision
  deriving DecidableEq

/-- Whether a decision is the triggering (`decision="block"`) kind. -/
def Decision.isBlock : Decision → Bool
  | Decision.empty => false
  | Decision.block _ _ => true

/-- Whether a process outcome carries a triggering decision on stdout. -/
def ProcOut.triggering (o : ProcOut) : Bool :=
  match o.stdout with
  | some d => d.isBlock
  | none => false

/-- Projection of a line to its decoded object, when it is one. -/
def lineObj : Line → Option Entry
  | Line.obj e => some e
  | _ => none

/-- Projection of a line to the decoded JSON value it carries, when the
line decodes at all. -/
def lineVal : Line → Option JVal
  | Line.blank => none
  | Line.malformed => none
  | Line.scalar => some JVal.scalar
  | Line.obj e => some (JVal.obj e)

/-- Whether a line decodes to a non-object JSON value. -/
def Line.isScalar : Line → Bool
  | Line.scalar => true
  | _ => false

/-! ### A small regular-expression engine

`post_diagnostics.is_diagnostics_clean_bash` runs `re.search` with
`re.IGNORECASE` over a fixed list of eight patterns.  The patterns use
only literals, `\d`, `\s`, `.`, `+`, `?` and `*`, so they are embedded
into the following syntax and decided by Brzozowski derivatives.
Case-insensitivity is applied at the character level (ASCII, via
`Char.toLower`), `\d` is `Char.isDigit`, `\s` is the ASCII whitespace
class of Python's `re`, and `.` matches anything but a newline. -/

inductive RE where
  | emptyPat
  | eps
  | lit (c : Char)
  | digit
  | space
  | dot
  | seq (a b : RE)
  | alt (a b : RE)
  | star (a : RE)
  deriving DecidableEq

/-- The ASCII whitespace characters matched by Python's `\s`. -/
def isPySpace (c : Char) : Bool :=
  c == ' ' || c == '\t' || c == '\n' || c == '\r' || c == '\x0b' || c == '\x0c'

/-- Whether a pattern accepts the empty string. -/
def RE.nullable : RE → Bool
  | RE.emptyPat => false
  | RE.eps => true
  | RE.lit _ => false
  | RE.digit => false
  | RE.space => false
  | RE.dot => false
  | RE.seq a b => a.nullable && b.nullable
  | RE.alt a b => a.nullable || b.nullable
  | RE.star _ => true

/-- Brzozowski derivative of a pattern by one character. -/
def RE.deriv : RE → Char → RE
  | RE.emptyPat, _ => RE.emptyPat
  | RE.eps, _ => RE.emptyPat
  | RE.lit c, d => if c.toLower == d.toLower then RE.eps else RE.emptyPat
  | RE.digit, d => if d.isDigit then RE.eps else RE.emptyPat
  | RE.space, d => if isPySpace d then RE.eps else RE.emptyPat
  | RE.dot, d => if d == '\n' then RE.emptyPat else RE.eps
  | RE.seq a b, d =>
      if a.nullable then RE.alt (RE.seq (a.deriv d) b) (b.deriv d)
      else RE.seq (a.deriv d) b
  | RE.alt a b, d => RE.alt (a.deriv d) (b.deriv d)
  | RE.star a, d => RE.seq (a.deriv d) (RE.star a)

/-- Whether some prefix of `cs` is accepted by `r`. -/
def RE.accPre : RE → List Char → Bool
  | r, [] => r.nullable
  | r, c :: cs => r.nullable || (r.deriv c).accPre cs

/-- `re.search`: whether some substring of `s` is accepted by `r`. -/
def reSearch (r : RE) (s : String) : Bool :=
  (s.data.tails).any (fun t => r.accPre t)

/-- The pattern matching a literal string, character by character. -/
def reStr (s : String) : RE :=
  s.data.foldr (fun c r => RE.seq (RE.lit c) r) RE.eps

/-- `r+` as `r r*`. -/
def rePlus (r : RE) : RE := RE.seq r (RE.star r)

/-- `r?` as `r | eps`. -/
def reOpt (r : RE) : RE := RE.alt r RE.eps

/-- The eight failure-indicating patterns of
`post_diagnostics.is_diagnostics_clean_bash`, in source order. -/
def error_patterns : List RE :=
  [ RE.seq (rePlus RE.digit)
      (RE.seq (rePlus RE.space) (RE.seq (reStr "error") (reOpt (RE.lit 's')))),
    reStr "ERROR:",
    reStr "FAILED",
    reStr "✖",
    RE.seq (reStr "found ") (RE.seq (RE.star RE.dot) (reStr " error")),
    reStr "compilation failed",
    reStr "type error",
    RE.seq (reStr "mypy:") (RE.seq (RE.star RE.dot) (reStr "error")) ]

namespace PostTodowrite

/-- `post_todowrite.all_tasks_completed`: false on an empty list, else all
statuses equal `"completed"`. -/
def all_tasks_completed (todos : List Todo) : Bool :=
  if todos.isEmpty then false
  else todos.all (fun todo => todo.status == some "completed")

/-- The line-scanning loop of `post_todowrite.parse_transcript`.  It keeps
the todos of the last `TodoWrite` tool-use record whose `todos` list is
non-empty (the `if todos:` guard).  Reaching a line that decoded to a
non-object value raises `AttributeError` at `entry.get("type")`, which is
not caught, so the whole scan aborts. -/
def scanTodos : List Line → Option (List Todo) → Except Unit (Option (List Todo))
  | [], last => Except.ok last
  | Line.blank :: rest, last => scanTodos rest last
  | Line.malformed :: rest, last => scanTodos rest last
  | Line.scalar :: _, _ => Except.error ()
  | Line.obj e :: rest, last =>
      if e.type == some "tool_use" then
        if e.name == some "TodoWrite" then
          let todos := (e.input.todos).getD []
          if todos.isEmpty then scanTodos rest last
          else scanTodos rest (some todos)
        else scanTodos rest last
      else scanTodos rest last

/-- `post_todowrite.parse_transcript`: `none` input models a missing or
unreadable transcript file, for which the function returns `None`. -/
def parse_transcript (file : Option (List Line)) : Except Unit (Option (List Todo)) :=
  match file with
  | none => Except.ok none
  | some lines => scanTodos lines none

/-- The injected prompt of `post_todowrite.create_injection_prompt`. -/
def create_injection_prompt : String :=
  "All tasks from the todo list have been completed!\n" ++
  "\n" ++
  "According to the CLAUDE.md workflow, you must now perform project-wide diagnostics:\n" ++
  "\n" ++
  "**Diagnostics Check Strategy**:\n" ++
  "\n" ++
  "1. **Primary Method**: Use `mcp__vscode-mcp__get_diagnostics` with workspace path\n" ++
  "2. **Fallback Methods** (if MCP unavailable):\n" ++
  "   - TypeScript: `npx tsc --noEmit && npx eslint .`\n" ++
  "   - Python: `python -m mypy . && python -m pylint .`\n" ++
  "   - Go: `go build ./... && go vet ./...`\n" ++
  "   - Java: `mvn compile && mvn checkstyle:check`\n" ++
  "\n" ++
  "**Fixing Process**:\n" ++
  "1. Check diagnostics for entire project\n" ++
  "2. Fix ERROR (severity 0), WARNING (severity 1), INFO/HINT (severity 2-3)\n" ++
  "3. Re-check diagnostics after fixes\n" ++
  "4. Repeat until all diagnostics are clean\n" ++
  "\n" ++
  "Proceed with diagnostics check now. The next workflow steps will be triggered automatically after diagnostics are clean."

/-- `post_todowrite.main`.  Note the deviations from the other two hooks:
malformed standard input exits with status 1 (printing only to stderr),
and the early non-matching exits print nothing at all. -/
def main (stdin : Option HookInput) (fs : String → Option (List Line)) : ProcOut :=
  match stdin with
  | none => { exitCode := 1, stdout := none }
  | some input_data =>
    if input_data.tool_name.getD "" ≠ "TodoWrite" then
      { exitCode := 0, stdout := none }
    else if input_data.transcript_path.getD "" = "" then
      { exitCode := 0, stdout := none }
    else
      match parse_transcript (fs (input_data.transcript_path.getD "")) with
      | Except.error _ => { exitCode := 1, stdout := none }
      | Except.ok none => { exitCode := 0, stdout := some Decision.empty }
      | Except.ok (some todos) =>
        if !todos.isEmpty && all_tasks_completed todos then
          { exitCode := 0,
            stdout := some (Decision.block create_injection_prompt
              { hookEventName := "PostToolUse",
                additionalContext := some ("Todo list completion detected: " ++
                  toString todos.length ++ " tasks all marked as completed."),
                completedTasks := some todos.length }) }
        else { exitCode := 0, stdout := some Decision.empty }

end PostTodowrite

namespace PostDiagnostics

/-- The line-scanning loop of `post_diagnostics.parse_transcript_recent`:
blank and undecodable lines are skipped, decoded objects are kept when
their `type` is `"tool_use"`, and a line decoding to a non-object value
raises `AttributeError` at `entry.get("type")` (uncaught), aborting the
whole read. -/
def readEntries : List Line → List Entry → Except Unit (List Entry)
  | [], acc => Except.ok acc
  | Line.blank :: rest, acc => readEntries rest acc
  | Line.malformed :: rest, acc => readEntries rest acc
  | Line.scalar :: _, _ => Except.error ()
  | Line.obj e :: rest, acc =>
      readEntries rest (if e.type == some "tool_use" then acc ++ [e] else acc)

/-- `post_diagnostics.parse_transcript_recent` (lookback defaults to 100 at
its call site): empty result for a missing or unreadable file, else the
last `lookback` collected tool-use records. -/
def parse_transcript_recent (file : Option (List Line)) (lookback : Nat) :
    Except Unit (List Entry) :=
  match file with
  | none => Except.ok []
  | some lines =>
      (readEntries lines []).map
        (fun recent_entries => recent_entries.drop (recent_entries.length - lookback))

/-- `post_diagnostics.is_diagnostics_clean_mcp`: clean iff no finding has
effective severity at most 1, a finding without a severity field counting
as 999. -/
def is_diagnostics_clean_mcp (tool_response : ToolResponse) : Bool :=
  let diagnostics := tool_response.diagnostics.getD []
  !(diagnostics.any (fun d => decide (d.severity.getD 999 ≤ 1)))

/-- `post_diagnostics.is_diagnostics_clean_bash`: clean iff the exit code
(default 1 when absent) is 0 and no failure pattern occurs in the output
(default empty when absent). -/
def is_diagnostics_clean_bash (tool_response : ToolResponse) : Bool :=
  let exit_code := tool_response.exit_code.getD 1
  let output := tool_response.output.getD ""
  if exit_code ≠ 0 then false
  else !(error_patterns.any (fun p => reSearch p output))

/-- The `tool_name == "TodoWrite"` test of the cycle guard, with the
`entry.get("name", "")` default. -/
def isTodoWriteEntry (e : Entry) : Bool :=
  e.name.getD "" == "TodoWrite"

/-- The `tool_name == "Task" and subagent_type == "code-reviewer"` test of
the cycle guard. -/
def isCodeReviewerCallEntry (e : Entry) : Bool :=
  e.name.getD "" == "Task" && e.input.subagent_type == some "code-reviewer"

/-- The `enumerate` loop of the cycle guard: one pass that keeps the last
index of a `TodoWrite` record and the last index of a code-reviewer `Task`
record, each starting at -1. -/
def guardScan : List Entry → Int → Int × Int → Int × Int
  | [], _, acc => acc
  | e :: rest, idx, (t, r) =>
      guardScan rest (idx + 1)
        (if isTodoWriteEntry e then idx else t,
         if isCodeReviewerCallEntry e then idx else r)

/-- `post_diagnostics.is_workflow_active_and_code_reviewer_not_called`:
the stage-2 cycle/reentry guard. -/
def is_workflow_active_and_code_reviewer_not_called (recent_entries : List Entry) : Bool :=
  let p := guardScan recent_entries 0 (-1, -1)
  decide (p.1 > p.2 ∧ p.1 ≥ 0)

/-- The injected prompt of `post_diagnostics.create_code_review_prompt`. -/
def create_code_review_prompt : String :=
  "Project-wide diagnostics are clean! All issues have been resolved.\n" ++
  "\n" ++
  "According to the CLAUDE.md workflow, you must now invoke the code-reviewer sub-agent:\n" ++
  "\n" ++
  "**Pre-Review Preparation**:\n" ++
  "\n" ++
  "Before invoking code-reviewer, consolidate information from all completed tasks:\n" ++
  "\n" ++
  "1. **Aggregate Modified Files**: Collect all files created/modified across ALL tasks\n" ++
  "2. **Aggregate Modified Components**: List all functions, classes, methods changed\n" ++
  "3. **Summarize Scope**: Overall description of what was implemented\n" ++
  "4. **Context Collection**: Important decisions or trade-offs made\n" ++
  "\n" ++
  "**Invoking code-reviewer**:\n" ++
  "\n" ++
  "Call the Task tool with subagent_type=\"code-reviewer\" and provide:\n" ++
  "- Complete file list: All files created/modified during task execution\n" ++
  "- Complete component list: All functions, classes, code blocks changed\n" ++
  "- Consolidated scope: Overall description of implementation\n" ++
  "- Cross-task context: How different tasks relate to each other, dependencies\n" ++
  "- **Skip diagnostics**: Instruct code-reviewer to NOT run diagnostic tools (already performed)\n" ++
  "\n" ++
  "Proceed with code review now. The final report will be generated automatically after review completes."

/-- `post_diagnostics.main`. -/
def main (stdin : Option HookInput) (fs : String → Option (List Line)) : ProcOut :=
  match stdin with
  | none => { exitCode := 0, stdout := some Decision.empty }
  | some input_data =>
    let tool_name := input_data.tool_name.getD ""
    if tool_name ∉ (["mcp__vscode-mcp__get_diagnostics", "Bash"] : List String) then
      { exitCode := 0, stdout := some Decision.empty }
    else if input_data.transcript_path.getD "" = "" then
      { exitCode := 0, stdout := some Decision.empty }
    else
      let is_clean :=
        if tool_name = "mcp__vscode-mcp__get_diagnostics" then
          is_diagnostics_clean_mcp input_data.tool_response
        else
          is_diagnostics_clean_bash input_data.tool_response
      if is_clean = false then { exitCode := 0, stdout := some Decision.empty }
      else
        match parse_transcript_recent (fs (input_data.transcript_path.getD "")) 100 with
        | Except.error _ => { exitCode := 1, stdout := none }
        | Except.ok recent_entries =>
          if is_workflow_active_and_code_reviewer_not_called recent_entries = false then
            { exitCode := 0, stdout := some Decision.empty }
          else
            { exitCode := 0,
              stdout := some (Decision.block create_code_review_prompt
                { hookEventName := "PostToolUse",
                  stage := some "diagnostics_clean_to_code_review",
                  diagnosticsTool := some tool_name }) }

end PostDiagnostics

namespace PostCodeReview

/-- `post_code_review.parse_transcript_recent` (lookback defaults to 200 at
its call site).  Its per-line `try` block only decodes and appends, so it
keeps every decoded value, object or not, and never raises. -/
def parse_transcript_recent (file : Option (List Line)) (lookback : Nat) : List JVal :=
  match file with
  | none => []
  | some lines =>
      let recent_entries := lines.filterMap lineVal
      recent_entries.drop (recent_entries.length - lookback)

/-- `post_code_review.is_code_reviewer_task`. -/
def is_code_reviewer_task (tool_input : ToolInput) : Bool :=
  tool_input.subagent_type == some "code-reviewer"

/-- `post_code_review.is_workflow_active`: scans the recent records in
order for a `TodoWrite` tool use, returning early when one is found.
Reaching a non-object value first raises `AttributeError` at
`entry.get("type")`, which is uncaught. -/
def is_workflow_active : List JVal → Except Unit Bool
  | [] => Except.ok false
  | JVal.scalar :: _ => Except.error ()
  | JVal.obj e :: rest =>
      if e.type == some "tool_use" && e.name == some "TodoWrite" then Except.ok true
      else is_workflow_active rest

/-- The injected prompt of `post_code_review.create_final_report_prompt`. -/
def create_final_report_prompt : String :=
  "Code review has been completed!\n" ++
  "\n" ++
  "According to the CLAUDE.md workflow, you must now generate the Final Summary Report.\n" ++
  "\n" ++
  "**Report Requirements** (800-1200 tokens):\n" ++
  "\n" ++
  "Generate a comprehensive report that aggregates:\n" ++
  "- Summary of all completed tasks from todo list\n" ++
  "- Aggregated list of all files created/modified\n" ++
  "- Consolidated implementation details\n" ++
  "- Comprehensive review results from code-reviewer (what was found, recommendations)\n" ++
  "- Overall status and recommendations\n" ++
  "\n" ++
  "**Report Structure**:\n" ++
  "\n" ++
  "Follow the template from CLAUDE.md (lines 137-224):\n" ++
  "\n" ++
  "```markdown\n" ++
  "# Отчёт о результатах реализации\n" ++
  "\n" ++
  "## Детали реализации\n" ++
  "\n" ++
  "### Изменённые/созданные файлы\n" ++
  "- [file.ext](path) - Description\n" ++
  "\n" ++
  "### Применённые паттерны проектирования\n" ++
  "- **Pattern Name**: Where and why used\n" ++
  "\n" ++
  "### Ключевые решения при реализации\n" ++
  "- Decision 1\n" ++
  "- Decision 2\n" ++
  "\n" ++
  "---\n" ++
  "\n" ++
  "## Результаты проверки кода\n" ++
  "\n" ++
  "### Итого\n" ++
  "- **Критических**: X (must fix before merge)\n" ++
  "- **Высокий приоритет**: Y (fix before deployment)\n" ++
  "- **Рекомендации**: Z improvements\n" ++
  "\n" ++
  "### Критические проблемы\n" ++
  "1. [Issue name]\n" ++
  "   Detailed explanation...\n" ++
  "   Затронутые файлы:\n" ++
  "   - file.ext:line\n" ++
  "\n" ++
  "### Высокий приоритет\n" ++
  "1. [Issue name]\n" ++
  "   Explanation...\n" ++
  "\n" ++
  "### Рекомендации\n" ++
  "1. [Improvement suggestion]\n" ++
  "   Why and how...\n" ++
  "\n" ++
  "### Положительные наблюдения\n" ++
  "- ✅ Good practice 1\n" ++
  "- ✅ Good practice 2\n" ++
  "\n" ++
  "---\n" ++
  "\n" ++
  "## Следующие шаги\n" ++
  "- What to do next\n" ++
  "- Deployment considerations\n" ++
  "\n" ++
  "---\n" ++
  "\n" ++
  "## Общая оценка\n" ++
  "\n" ++
  "2-3 sentence summary of code quality, readiness for use, and important warnings.\n" ++
  "```\n" ++
  "\n" ++
  "**Report Format**:\n" ++
  "- Use Russian language for the report\n" ++
  "- Include file references as markdown links with line numbers\n" ++
  "- Provide clear status indicator:\n" ++
  "  - ✅ **Ready for Use**: No critical/high issues, implementation complete\n" ++
  "  - ⚠️ **Requires Fixes**: High-priority issues found, fix before deployment\n" ++
  "  - ❌ **Critical Issues Found**: Security/critical errors, must fix urgently\n" ++
  "- Focus on actionable information and clear priorities\n" ++
  "- Include function signatures for implemented code\n" ++
  "\n" ++
  "Generate the final summary report now."

/-- `post_code_review.main`. -/
def main (stdin : Option HookInput) (fs : String → Option (List Line)) : ProcOut :=
  match stdin with
  | none => { exitCode := 0, stdout := some Decision.empty }
  | some input_data =>
    if input_data.tool_name.getD "" ≠ "Task" then
      { exitCode := 0, stdout := some Decision.empty }
    else if is_code_reviewer_task input_data.tool_input = false then
      { exitCode := 0, stdout := some Decision.empty }
    else if input_data.transcript_path.getD "" = "" then
      { exitCode := 0, stdout := some Decision.empty }
    else
      let recent_entries :=
        parse_transcript_recent (fs (input_data.transcript_path.getD "")) 200
      match is_workflow_active recent_entries with
      | Except.error _ => { exitCode := 1, stdout := none }
      | Except.ok false => { exitCode := 0, stdout := some Decision.empty }
      | Except.ok true =>
        { exitCode := 0,
          stdout := some (Decision.block create_final_report_prompt
            { hookEventName := "PostToolUse",
              stage := some "code_review_to_final_report",
              subagentType := some "code-reviewer" }) }

end PostCodeReview

/-! ### Specification-level definitions

These definitions phrase, in the spec's own vocabulary, the quantities the
claims talk about (last positions of event kinds, the snapshot of the most
recent task-list update).  They are deliberately written differently from
the single-pass loops of the scripts, and the theorems below relate the
two. -/

/-- Position of the last entry satisfying `p` (head position 0), or -1 when
no entry satisfies `p`. -/
def specLastPos (p : Entry → Bool) : List Entry → Int
  | [] => -1
  | e :: rest =>
      if 0 ≤ specLastPos p rest then specLastPos p rest + 1
      else if p e then 0 else -1

/-- The accumulator loop keeping the index of the last entry satisfying
`p`; two of these, fused into one pass, form `guardScan`. -/
def lastPosAux (p : Entry → Bool) : List Entry → Int → Int → Int
  | [], _, acc => acc
  | e :: rest, idx, acc => lastPosAux p rest (idx + 1) (if p e then idx else acc)

/-- The decoded objects among a transcript's lines. -/
def objsOf (lines : List Line) : List Entry := lines.filterMap lineObj

/-- A task-list-update record: a `TodoWrite` tool use. -/
def isTodoUse (e : Entry) : Bool :=
  e.type == some "tool_use" && e.name == some "TodoWrite"

/-- A task-list-update record carrying a non-empty snapshot. -/
def isNonEmptyTodoUse (e : Entry) : Bool :=
  isTodoUse e && !((e.input.todos).getD []).isEmpty

/-- The snapshot carried by the most recent task-list-update record of the
log (scanning from the end), absent when there is none.  This is the
claim's reading: later snapshots replace earlier ones, empty or not. -/
def lastEventSnapshot (lines : List Line) : Option (List Todo) :=
  ((objsOf lines).reverse.find? isTodoUse).map (fun e => (e.input.todos).getD [])

/-- The snapshot carried by the most recent task-list-update record whose
snapshot is non-empty; this is what the script actually extracts. -/
def lastNonEmptySnapshot (lines : List Line) : Option (List Todo) :=
  ((objsOf lines).reverse.find? isNonEmptyTodoUse).map (fun e => (e.input.todos).getD [])

/-- The tool-use records collected by the post_diagnostics reader. -/
def toolUseEntriesOf (lines : List Line) : List Entry :=
  (objsOf lines).filter (fun e => e.type == some "tool_use")

/-- Lines that survive decoding at all (not blank, not undecodable). -/
def keepLine : Line → Bool
  | Line.blank => false
  | Line.malformed => false
  | Line.scalar => true
  | Line.obj _ => true

/-- The transcript path named by a request payload: what each `main` reads
from the file system (the empty string when the payload is missing or
carries no path; the scripts exit before reading in that case). -/
def requestPath : Option HookInput → String
  | none => ""
  | some input_data => input_data.transcript_path.getD ""

/-! ### Concrete example data used by witnesses and counterexamples -/

/-- A `TodoWrite` tool-use record (no todos carried). -/
def todoWriteEntry : Entry :=
  { type := some "tool_use", name := some "TodoWrite", input := {} }

/-- A `Task(subagent_type="code-reviewer")` tool-use record. -/
def reviewerTaskEntry : Entry :=
  { type := some "tool_use", name := some "Task",
    input := { subagent_type := some "code-reviewer" } }

/-- An unrelated tool-use record. -/
def bashEntry : Entry :=
  { type := some "tool_use", name := some "Bash", input := {} }

/-- History with a task-list update at position 3, a reviewer invocation at
position 7 and a task-list update at position 10. -/
def historyA : List Entry :=
  [bashEntry, bashEntry, bashEntry, todoWriteEntry, bashEntry, bashEntry, bashEntry,
   reviewerTaskEntry, bashEntry, bashEntry, todoWriteEntry]

/-- History with a task-list update at position 3 and a reviewer invocation
at position 7, and nothing after it. -/
def historyB : List Entry :=
  [bashEntry, bashEntry, bashEntry, todoWriteEntry, bashEntry, bashEntry, bashEntry,
   reviewerTaskEntry]

/-- A completed task. -/
def completedTodo : Todo := { status := some "completed" }

/-- A pending task. -/
def pendingTodo : Todo := { status := some "pending" }

/-- A `TodoWrite` record whose snapshot is one completed task. -/
def todoWriteDoneEntry : Entry :=
  { type := some "tool_use", name := some "TodoWrite",
    input := { todos := some [completedTodo] } }

/-- A `TodoWrite` record whose snapshot is the empty list. -/
def todoWriteEmptyEntry : Entry :=
  { type := some "tool_use", name := some "TodoWrite",
    input := { todos := some [] } }

/-! ### Helper lemmas -/

/-- `specLastPos` is either -1 or non-negative. -/
theorem specLastPos_neg_or_nonneg (p : Entry → Bool) (l : List Entry) :
    specLastPos p l = -1 ∨ 0 ≤ specLastPos p l := by
  induction l with
  | nil => exact Or.inl rfl
  | cons e rest ih =>
      simp only [specLastPos]
      split_ifs with h1 h2
      · right; omega
      · right; omega
      · left; rfl

/-- The last-index accumulator loop computes `specLastPos`, shifted by the
starting index, falling back to the accumulator when nothing matches. -/
theorem lastPosAux_eq_specLastPos (p : Entry → Bool) (l : List Entry) :
    ∀ (idx acc : Int), lastPosAux p l idx acc =
      if 0 ≤ specLastPos p l then idx + specLastPos p l else acc := by
  induction l with
  | nil =>
      intro idx acc
      simp [lastPosAux, specLastPos]
  | cons e rest ih =>
      intro idx acc
      simp only [lastPosAux, specLastPos, ih]
      rcases specLastPos_neg_or_nonneg p rest with h | h
      · rw [h]
        by_cases hp : p e <;> simp [hp]
      · split_ifs <;> omega


/-- The fused guard loop is the pair of the two last-index loops. -/
theorem guardScan_eq_lastPosAux (l : List Entry) :
    ∀ (idx t r : Int), PostDiagnostics.guardScan l idx (t, r) =
      (lastPosAux PostDiagnostics.isTodoWriteEntry l idx t,
       lastPosAux PostDiagnostics.isCodeReviewerCallEntry l idx r) := by
  induction l with
  | nil => intro idx t r; rfl
  | cons e rest ih =>
      intro idx t r
      simp only [PostDiagnostics.guardScan, lastPosAux]
      exact ih (idx + 1) _ _

/-- The guard loop started at index 0 with accumulators -1 computes exactly
the two last positions of the specification. -/
theorem guardScan_eq_specLastPos (l : List Entry) :
    PostDiagnostics.guardScan l 0 (-1, -1) =
      (specLastPos PostDiagnostics.isTodoWriteEntry l,
       specLastPos PostDiagnostics.isCodeReviewerCallEntry l) := by
  rw [guardScan_eq_lastPosAux]
  rw [lastPosAux_eq_specLastPos, lastPosAux_eq_specLastPos]
  rcases specLastPos_neg_or_nonneg PostDiagnostics.isTodoWriteEntry l with h1 | h1 <;>
    rcases specLastPos_neg_or_nonneg PostDiagnostics.isCodeReviewerCallEntry l with h2 | h2 <;>
      simp [h1, h2]

/-! ### Claim C1: the stage-2 cycle/reentry guard -/

/-- C1: for every history, the stage-2 cycle/reentry guard permits firing
iff the position of the last `TodoWrite` record is strictly greater than
the position of the last code-reviewer `Task` record and is at least 0
(each position being -1 when absent); in particular it permits firing on
the history [taskListUpdate@3, reviewerInvoked@7, taskListUpdate@10] and
refuses it on [taskListUpdate@3, reviewerInvoked@7]. -/
theorem c1_cycle_guard_iff_last_positions :
    (∀ entries : List Entry,
      PostDiagnostics.is_workflow_active_and_code_reviewer_not_called entries = true ↔
        specLastPos PostDiagnostics.isTodoWriteEntry entries >
            specLastPos PostDiagnostics.isCodeReviewerCallEntry entries ∧
          specLastPos PostDiagnostics.isTodoWriteEntry entries ≥ 0)
    ∧ PostDiagnostics.is_workflow_active_and_code_reviewer_not_called historyA = true
    ∧ PostDiagnostics.is_workflow_active_and_code_reviewer_not_called historyB = false := by
  refine ⟨?_, by decide, by decide⟩
  intro entries
  simp only [PostDiagnostics.is_workflow_active_and_code_reviewer_not_called,
    guardScan_eq_specLastPos, decide_eq_true_eq]

/-- Witness for C1: instantiating the guard characterisation on a concrete
history with a task-list update after the last reviewer invocation. -/
theorem c1_cycle_guard_iff_last_positions_witness :
    specLastPos PostDiagnostics.isTodoWriteEntry historyA >
        specLastPos PostDiagnostics.isCodeReviewerCallEntry historyA ∧
      specLastPos PostDiagnostics.isTodoWriteEntry historyA ≥ 0 :=
  (c1_cycle_guard_iff_last_positions.1 historyA).mp c1_cycle_guard_iff_last_positions.2.1

/-! ### Claim C2: the all-tasks-completed predicate -/

/-- C2: `all_tasks_completed` is true iff the snapshot is non-empty and
every task is completed; it is false on the empty snapshot, and false as
soon as one task is pending or in-progress. -/
theorem c2_all_tasks_completed_iff (todos : List Todo) :
    (PostTodowrite.all_tasks_completed todos = true ↔
      todos ≠ [] ∧ ∀ t ∈ todos, t.status = some "completed")
    ∧ PostTodowrite.all_tasks_completed [] = false
    ∧ (∀ t ∈ todos, (t.status = some "pending" ∨ t.status = some "in-progress") →
        PostTodowrite.all_tasks_completed todos = false) := by
  have key : PostTodowrite.all_tasks_completed todos = true ↔
      todos ≠ [] ∧ ∀ t ∈ todos, t.status = some "completed" := by
    cases todos with
    | nil => simp [PostTodowrite.all_tasks_completed]
    | cons a l => simp [PostTodowrite.all_tasks_completed, List.all_eq_true]
  refine ⟨key, by simp [PostTodowrite.all_tasks_completed], ?_⟩
  intro t ht hst
  rcases Bool.eq_false_or_eq_true (PostTodowrite.all_tasks_completed todos) with h | h
  swap
  · exact h
  · have hc := (key.mp h).2 t ht
    rcases hst with hp | hp <;> rw [hp] at hc <;> simp at hc

/-- Witness for C2: a fully completed two-task snapshot passes, a snapshot
with a pending task fails. -/
theorem c2_all_tasks_completed_iff_witness :
    PostTodowrite.all_tasks_completed [completedTodo, completedTodo] = true
    ∧ PostTodowrite.all_tasks_completed [completedTodo, pendingTodo] = false :=
  ⟨(c2_all_tasks_completed_iff [completedTodo, completedTodo]).1.mpr
      ⟨by simp, by decide⟩,
   (c2_all_tasks_completed_iff [completedTodo, pendingTodo]).2.2 pendingTodo
      (by simp) (Or.inl rfl)⟩

/-! ### Claims C3 and C10: the structured clean predicate -/

/-- C3: the structured clean check fails iff some finding carries an
explicit severity at most 1; it passes when every finding carries an
explicit severity at least 2, and when there are no findings. -/
theorem c3_clean_mcp_iff (tool_response : ToolResponse) :
    (PostDiagnostics.is_diagnostics_clean_mcp tool_response = false ↔
      ∃ d ∈ tool_response.diagnostics.getD [], ∃ s, d.severity = some s ∧ s ≤ 1)
    ∧ ((∀ d ∈ tool_response.diagnostics.getD [], ∃ s, d.severity = some s ∧ 2 ≤ s) →
        PostDiagnostics.is_diagnostics_clean_mcp tool_response = true)
    ∧ (tool_response.diagnostics.getD [] = [] →
        PostDiagnostics.is_diagnostics_clean_mcp tool_response = true) := by
  have key : PostDiagnostics.is_diagnostics_clean_mcp tool_response = false ↔
      ∃ d ∈ tool_response.diagnostics.getD [], ∃ s, d.severity = some s ∧ s ≤ 1 := by
    simp only [PostDiagnostics.is_diagnostics_clean_mcp, Bool.not_eq_false',
      List.any_eq_true, decide_eq_true_eq]
    constructor
    · rintro ⟨d, hd, hle⟩
      cases hs : d.severity with
      | none => rw [hs] at hle; simp only [Option.getD_none] at hle; omega
      | some s => rw [hs] at hle; exact ⟨d, hd, s, hs, by simpa using hle⟩
    · rintro ⟨d, hd, s, hs, hle⟩
      exact ⟨d, hd, by rw [hs]; simpa using hle⟩
  refine ⟨key, ?_, ?_⟩
  · intro h
    rcases Bool.eq_false_or_eq_true (PostDiagnostics.is_diagnostics_clean_mcp tool_response)
      with ht | hf
    · exact ht
    · rcases key.mp hf with ⟨d, hd, s, hs, hle⟩
      rcases h d hd with ⟨s', hs', h2⟩
      rw [hs] at hs'
      have : s = s' := by injection hs'
      omega
  · intro h
    simp [PostDiagnostics.is_diagnostics_clean_mcp, h]

/-- Witness for C3: an error-level finding blocks, info and hint level
findings do not. -/
theorem c3_clean_mcp_iff_witness :
    PostDiagnostics.is_diagnostics_clean_mcp { diagnostics := some [{ severity := some 0 }] } = false
    ∧ PostDiagnostics.is_diagnostics_clean_mcp
        { diagnostics := some [{ severity := some 2 }, { severity := some 3 }] } = true :=
  ⟨(c3_clean_mcp_iff { diagnostics := some [{ severity := some 0 }] }).1.mpr
      ⟨{ severity := some 0 }, by simp, 0, rfl, by omega⟩,
   (c3_clean_mcp_iff { diagnostics := some [{ severity := some 2 }, { severity := some 3 }] }).2.1
      (by
        intro d hd
        simp only [Option.getD_some, List.mem_cons, List.mem_singleton] at hd
        rcases hd with rfl | rfl | h
        · exact ⟨2, rfl, by omega⟩
        · exact ⟨3, rfl, by omega⟩
        · cases h)⟩

/-- C10: a finding without a severity field is given effective severity
999 and never blocks: when no finding carries an explicit severity at most
1, the structured clean check passes even in the presence of findings with
no severity field. -/
theorem c10_absent_severity_not_blocking (tool_response : ToolResponse)
    (h : ∀ d ∈ tool_response.diagnostics.getD [], ∀ s, d.severity = some s → ¬ s ≤ 1) :
    PostDiagnostics.is_diagnostics_clean_mcp tool_response = true := by
  simp only [PostDiagnostics.is_diagnostics_clean_mcp, Bool.not_eq_eq_eq_not, Bool.not_true,
    List.any_eq_false, decide_eq_true_eq]
  intro d hd
  cases hs : d.severity with
  | none => simp only [Option.getD_none]; omega
  | some s =>
      have := h d hd s hs
      simpa [hs] using this

/-- Witness for C10: a finding with no severity field next to a hint-level
finding does not block. -/
theorem c10_absent_severity_not_blocking_witness :
    PostDiagnostics.is_diagnostics_clean_mcp
      { diagnostics := some [{ severity := none }, { severity := some 2 }] } = true :=
  c10_absent_severity_not_blocking
    { diagnostics := some [{ severity := none }, { severity := some 2 }] }
    (by
      intro d hd s hs
      simp only [Option.getD_some, List.mem_cons, List.mem_singleton] at hd
      rcases hd with rfl | rfl | h
      · simp at hs
      · have : s = 2 := by simpa using hs.symm
        omega
      · cases h)

/-! ### Claim C4: the unstructured (Bash) clean predicate -/

/-- C4: the unstructured clean check passes iff the exit code is 0 and no
failure pattern occurs (case-insensitively) in the output; a nonzero exit
code alone fails it, and any occurring failure pattern fails it. -/
theorem c4_clean_bash_iff (tool_response : ToolResponse) :
    (PostDiagnostics.is_diagnostics_clean_bash tool_response = true ↔
      tool_response.exit_code.getD 1 = 0 ∧
        ∀ p ∈ error_patterns, reSearch p (tool_response.output.getD "") = false)
    ∧ (tool_response.exit_code.getD 1 ≠ 0 →
        PostDiagnostics.is_diagnostics_clean_bash tool_response = false)
    ∧ (∀ p ∈ error_patterns, reSearch p (tool_response.output.getD "") = true →
        PostDiagnostics.is_diagnostics_clean_bash tool_response = false) := by
  have key : PostDiagnostics.is_diagnostics_clean_bash tool_response = true ↔
      tool_response.exit_code.getD 1 = 0 ∧
        ∀ p ∈ error_patterns, reSearch p (tool_response.output.getD "") = false := by
    by_cases h : tool_response.exit_code.getD 1 = 0
    · simp [PostDiagnostics.is_diagnostics_clean_bash, h, List.any_eq_false]
    · simp [PostDiagnostics.is_diagnostics_clean_bash, h]
  refine ⟨key, ?_, ?_⟩
  · intro h
    rcases Bool.eq_false_or_eq_true (PostDiagnostics.is_diagnostics_clean_bash tool_response)
      with ht | hf
    · exact absurd (key.mp ht).1 h
    · exact hf
  · intro p hp hs
    rcases Bool.eq_false_or_eq_true (PostDiagnostics.is_diagnostics_clean_bash tool_response)
      with ht | hf
    · have hfalse := (key.mp ht).2 p hp
      rw [hs] at hfalse
      cases hfalse
    · exact hf

/-- Witness for C4: a numeric error count in the output blocks despite exit
code 0, clean output with exit code 0 passes, and exit code 2 with clean
output blocks. -/
theorem c4_clean_bash_iff_witness :
    PostDiagnostics.is_diagnostics_clean_bash
        { exit_code := some 0, output := some "Found 3 errors in 1 file" } = false
    ∧ PostDiagnostics.is_diagnostics_clean_bash
        { exit_code := some 0, output := some "All checks passed" } = true
    ∧ PostDiagnostics.is_diagnostics_clean_bash
        { exit_code := some 2, output := some "All checks passed" } = false :=
  ⟨(c4_clean_bash_iff { exit_code := some 0, output := some "Found 3 errors in 1 file" }).2.2
      (RE.seq (rePlus RE.digit)
        (RE.seq (rePlus RE.space) (RE.seq (reStr "error") (reOpt (RE.lit 's')))))
      (by decide) (by decide),
   (c4_clean_bash_iff { exit_code := some 0, output := some "All checks passed" }).1.mpr
      ⟨by decide, by decide⟩,
   (c4_clean_bash_iff { exit_code := some 2, output := some "All checks passed" }).2.1
      (by decide)⟩

/-! ### Claim C5: the stage-3 (review-invoked) detector -/

/-- A successful positive scan of `is_workflow_active` exhibits a
`TodoWrite` tool-use record among the scanned values. -/
theorem workflow_active_ok_true (l : List JVal) :
    PostCodeReview.is_workflow_active l = Except.ok true →
    ∃ e, JVal.obj e ∈ l ∧ e.type = some "tool_use" ∧ e.name = some "TodoWrite" := by
  induction l with
  | nil => intro h; simp [PostCodeReview.is_workflow_active] at h
  | cons v rest ih =>
      intro h
      cases v with
      | scalar => simp [PostCodeReview.is_workflow_active] at h
      | obj e =>
          rcases Bool.eq_false_or_eq_true
              (e.type == some "tool_use" && e.name == some "TodoWrite") with hc | hc
          · refine ⟨e, List.mem_cons_self _ _, ?_⟩
            simpa [Bool.and_eq_true, beq_iff_eq] using hc
          · rw [PostCodeReview.is_workflow_active, if_neg (by simp [hc])] at h
            rcases ih h with ⟨e', he', h'⟩
            exact ⟨e', List.mem_cons_of_mem _ he', h'⟩

/-- A scan over values with no `TodoWrite` tool-use record and no
non-object value returns a negative answer (and does not raise). -/
theorem workflow_active_ok_false (l : List JVal) :
    (∀ e, JVal.obj e ∈ l → ¬(e.type = some "tool_use" ∧ e.name = some "TodoWrite")) →
    JVal.scalar ∉ l →
    PostCodeReview.is_workflow_active l = Except.ok false := by
  induction l with
  | nil => intro _ _; rfl
  | cons v rest ih =>
      intro hnone hnoscalar
      cases v with
      | scalar => exact absurd (List.mem_cons_self _ _) hnoscalar
      | obj e =>
          have hc : ¬(e.type = some "tool_use" ∧ e.name = some "TodoWrite") :=
            hnone e (List.mem_cons_self _ _)
          have hcb : (e.type == some "tool_use" && e.name == some "TodoWrite") = false := by
            rcases Bool.eq_false_or_eq_true
                (e.type == some "tool_use" && e.name == some "TodoWrite") with hb | hb
            · exact absurd (by simpa [Bool.and_eq_true, beq_iff_eq] using hb) hc
            · exact hb
          rw [PostCodeReview.is_workflow_active, if_neg (by simp [hcb])]
          exact ih (fun e' he' => hnone e' (List.mem_cons_of_mem _ he'))
            (fun hs => hnoscalar (List.mem_cons_of_mem _ hs))

/-- The stage-3 detector triggers exactly when the request names the
`Task` tool with the reviewer role and a transcript path, and the scan of
recent history finds a `TodoWrite` record (without first hitting a
non-object record). -/
theorem postCodeReview_triggering_iff (input_data : HookInput)
    (fs : String → Option (List Line)) :
    (PostCodeReview.main (some input_data) fs).triggering = true ↔
      input_data.tool_name.getD "" = "Task"
      ∧ PostCodeReview.is_code_reviewer_task input_data.tool_input = true
      ∧ input_data.transcript_path.getD "" ≠ ""
      ∧ PostCodeReview.is_workflow_active
          (PostCodeReview.parse_transcript_recent
            (fs (input_data.transcript_path.getD "")) 200) = Except.ok true := by
  by_cases h1 : input_data.tool_name.getD "" = "Task"
  · by_cases h2 : PostCodeReview.is_code_reviewer_task input_data.tool_input = false
    · simp [PostCodeReview.main, h1, h2, ProcOut.triggering, Decision.isBlock]
    · have h2t : PostCodeReview.is_code_reviewer_task input_data.tool_input = true := by
        rcases Bool.eq_false_or_eq_true
            (PostCodeReview.is_code_reviewer_task input_data.tool_input) with h | h
        · exact h
        · exact absurd h h2
      by_cases h3 : input_data.transcript_path.getD "" = ""
      · simp [PostCodeReview.main, h1, h2, h3, ProcOut.triggering, Decision.isBlock]
      · cases hwf : PostCodeReview.is_workflow_active
            (PostCodeReview.parse_transcript_recent
              (fs (input_data.transcript_path.getD "")) 200) with
        | error e =>
            simp [PostCodeReview.main, h1, h2, h3, hwf, h2t,
              ProcOut.triggering, Decision.isBlock]
        | ok b =>
            cases b
            · simp [PostCodeReview.main, h1, h2, h3, hwf, h2t,
                ProcOut.triggering, Decision.isBlock]
            · simp [PostCodeReview.main, h1, h2, h3, hwf, h2t,
                ProcOut.triggering, Decision.isBlock]
  · simp [PostCodeReview.main, h1, ProcOut.triggering, Decision.isBlock]

/-- Counterexample for C5 as stated: with a code-reviewer `Task` request
and a scanned history consisting of one record that decodes to a
non-object JSON value (so the history contains no task-list-update), the
detector does not emit the empty decision — the scan raises
`AttributeError` and the process dies with exit status 1 and no output. -/
theorem c5_counterexample :
    PostCodeReview.parse_transcript_recent
        ((fun _ => some [Line.scalar]) "t") 200 = [JVal.scalar]
    ∧ PostCodeReview.main
        (some { tool_name := some "Task",
                tool_input := { subagent_type := some "code-reviewer" },
                transcript_path := some "t" })
        (fun _ => some [Line.scalar]) = { exitCode := 1, stdout := none }
    ∧ PostCodeReview.main
        (some { tool_name := some "Task",
                tool_input := { subagent_type := some "code-reviewer" },
                transcript_path := some "t" })
        (fun _ => some [Line.scalar]) ≠ { exitCode := 0, stdout := some Decision.empty } := by
  refine ⟨by decide, by decide, by decide⟩

/-- C5 (amended): the stage-3 detector emits a triggering decision only
when the request is a `Task` invocation whose declared role is
`code-reviewer` and a `TodoWrite` tool-use record exists among the scanned
history; when the declared role differs it emits the empty decision; and
when no `TodoWrite` record exists it emits the empty decision provided no
scanned record decodes to a non-object value (such a record makes the
detector die instead of answering). -/
theorem c5_reviewer_detector (input_data : HookInput)
    (fs : String → Option (List Line)) :
    ((PostCodeReview.main (some input_data) fs).triggering = true →
      input_data.tool_name.getD "" = "Task"
      ∧ input_data.tool_input.subagent_type = some "code-reviewer"
      ∧ ∃ e, JVal.obj e ∈ PostCodeReview.parse_transcript_recent
            (fs (input_data.transcript_path.getD "")) 200
          ∧ e.type = some "tool_use" ∧ e.name = some "TodoWrite")
    ∧ (input_data.tool_input.subagent_type ≠ some "code-reviewer" →
        PostCodeReview.main (some input_data) fs =
          { exitCode := 0, stdout := some Decision.empty })
    ∧ ((∀ e, JVal.obj e ∈ PostCodeReview.parse_transcript_recent
            (fs (input_data.transcript_path.getD "")) 200 →
          ¬(e.type = some "tool_use" ∧ e.name = some "TodoWrite")) →
        JVal.scalar ∉ PostCodeReview.parse_transcript_recent
            (fs (input_data.transcript_path.getD "")) 200 →
        PostCodeReview.main (some input_data) fs =
          { exitCode := 0, stdout := some Decision.empty }) := by
  refine ⟨?_, ?_, ?_⟩
  · intro htrig
    rcases (postCodeReview_triggering_iff input_data fs).mp htrig with ⟨h1, h2, h3, hwf⟩
    refine ⟨h1, ?_, workflow_active_ok_true _ hwf⟩
    simpa [PostCodeReview.is_code_reviewer_task, beq_iff_eq] using h2
  · intro hsub
    have h2 : PostCodeReview.is_code_reviewer_task input_data.tool_input = false := by
      simp [PostCodeReview.is_code_reviewer_task, beq_eq_false_iff_ne, hsub]
    by_cases h1 : input_data.tool_name.getD "" = "Task"
    · simp [PostCodeReview.main, h1, h2]
    · simp [PostCodeReview.main, h1]
  · intro hnone hnoscalar
    by_cases h1 : input_data.tool_name.getD "" = "Task"
    · by_cases h2 : PostCodeReview.is_code_reviewer_task input_data.tool_input = false
      · simp [PostCodeReview.main, h1, h2]
      · by_cases h3 : input_data.transcript_path.getD "" = ""
        · simp [PostCodeReview.main, h1, h2, h3]
        · have hwf := workflow_active_ok_false _ hnone hnoscalar
          simp [PostCodeReview.main, h1, h2, h3, hwf]
    · simp [PostCodeReview.main, h1]

/-- Witness for C5: a `Task` request whose declared role is not the
reviewer role yields the empty decision. -/
theorem c5_reviewer_detector_witness :
    PostCodeReview.main
      (some { tool_name := some "Task",
              tool_input := { subagent_type := some "general-purpose" },
              transcript_path := some "t" })
      (fun _ => some [Line.obj todoWriteEntry]) =
      { exitCode := 0, stdout := some Decision.empty } :=
  (c5_reviewer_detector
      { tool_name := some "Task",
        tool_input := { subagent_type := some "general-purpose" },
        transcript_path := some "t" }
      (fun _ => some [Line.obj todoWriteEntry])).2.1 (by decide)

/-! ### Claim C6: behaviour on malformed standard input -/

/-- C6: on unparsable standard input, post_diagnostics and post_code_review
print the empty object and exit 0, but post_todowrite exits with status 1
and prints nothing on standard output, contradicting the uniform
exit-0-with-empty-object convention the claim states. -/
theorem c6_malformed_stdin :
    PostTodowrite.main none (fun _ => none) = { exitCode := 1, stdout := none }
    ∧ PostDiagnostics.main none (fun _ => none) =
        { exitCode := 0, stdout := some Decision.empty }
    ∧ PostCodeReview.main none (fun _ => none) =
        { exitCode := 0, stdout := some Decision.empty } :=
  ⟨rfl, rfl, rfl⟩

/-! ### Claim C7: the event-log readers -/

/-- The post_diagnostics line loop aborts exactly when some line decodes to
a non-object JSON value. -/
theorem readEntries_error_iff (lines : List Line) :
    ∀ acc, PostDiagnostics.readEntries lines acc = Except.error () ↔ Line.scalar ∈ lines := by
  induction lines with
  | nil => intro acc; simp [PostDiagnostics.readEntries]
  | cons l rest ih =>
      intro acc
      cases l with
      | blank => rw [PostDiagnostics.readEntries]; simp [ih]
      | malformed => rw [PostDiagnostics.readEntries]; simp [ih]
      | scalar => simp [PostDiagnostics.readEntries]
      | obj e => rw [PostDiagnostics.readEntries]; simp [ih]

/-- Without non-object lines, the post_diagnostics line loop collects
exactly the tool-use records, in order, after the accumulator. -/
theorem readEntries_ok (lines : List Line) :
    Line.scalar ∉ lines → ∀ acc,
      PostDiagnostics.readEntries lines acc = Except.ok (acc ++ toolUseEntriesOf lines) := by
  induction lines with
  | nil => intro _ acc; simp [PostDiagnostics.readEntries, toolUseEntriesOf, objsOf]
  | cons l rest ih =>
      intro hns acc
      have hns' : Line.scalar ∉ rest := fun h => hns (List.mem_cons_of_mem _ h)
      cases l with
      | blank =>
          rw [PostDiagnostics.readEntries, ih hns']
          simp [toolUseEntriesOf, objsOf, lineObj]
      | malformed =>
          rw [PostDiagnostics.readEntries, ih hns']
          simp [toolUseEntriesOf, objsOf, lineObj]
      | scalar => exact absurd (List.mem_cons_self _ _) hns
      | obj e =>
          rw [PostDiagnostics.readEntries, ih hns']
          by_cases ht : (e.type == some "tool_use") = true
          · simp [toolUseEntriesOf, objsOf, lineObj, ht, List.filter_cons]
          · simp only [Bool.not_eq_true] at ht
            simp [toolUseEntriesOf, objsOf, lineObj, ht, List.filter_cons]

/-- Dropping the blank and undecodable lines does not change what the
post_diagnostics line loop does. -/
theorem readEntries_filter (lines : List Line) :
    ∀ acc, PostDiagnostics.readEntries (lines.filter keepLine) acc =
      PostDiagnostics.readEntries lines acc := by
  induction lines with
  | nil => intro acc; rfl
  | cons l rest ih =>
      intro acc
      cases l with
      | blank => rw [PostDiagnostics.readEntries]; simpa [keepLine] using ih acc
      | malformed => rw [PostDiagnostics.readEntries]; simpa [keepLine] using ih acc
      | scalar => simp [keepLine, List.filter_cons, PostDiagnostics.readEntries]
      | obj e =>
          simp only [List.filter_cons, keepLine, if_true]
          rw [PostDiagnostics.readEntries, PostDiagnostics.readEntries]
          exact ih _

/-- Dropping the blank and undecodable lines does not change the decoded
values either. -/
theorem filterMap_lineVal_filter (lines : List Line) :
    (lines.filter keepLine).filterMap lineVal = lines.filterMap lineVal := by
  induction lines with
  | nil => rfl
  | cons l rest ih =>
      cases l <;> simp [keepLine, List.filter_cons, List.filterMap_cons, lineVal, ih]

/-- Counterexample for C7 as stated: a transcript whose lines are a good
tool-use record, an undecodable line and a line decoding to the JSON value
`42` makes the post_diagnostics reader abort the whole read (raising
`AttributeError` to its caller) instead of skipping the bad lines and
returning the parseable record; without the non-object line the same read
succeeds. -/
theorem c7_counterexample :
    PostDiagnostics.parse_transcript_recent
        (some [Line.obj todoWriteEntry, Line.malformed, Line.scalar]) 100 = Except.error ()
    ∧ PostDiagnostics.parse_transcript_recent
        (some [Line.obj todoWriteEntry, Line.malformed]) 100 = Except.ok [todoWriteEntry] :=
  ⟨rfl, rfl⟩

/-- C7 (amended): both readers return an empty sequence for a missing or
unreadable path; both are insensitive to blank and JSON-undecodable lines,
which are skipped individually; when no line decodes to a non-object value
(and up to the lookback bound) the post_diagnostics reader returns every
collected record and never fails; but the post_diagnostics reader fails
the whole read exactly when some line decodes to a non-object JSON value,
while the post_code_review reader instead keeps such values as records. -/
theorem c7_reader_robustness (lines : List Line) (lookback : Nat) :
    PostDiagnostics.parse_transcript_recent none lookback = Except.ok []
    ∧ PostCodeReview.parse_transcript_recent none lookback = []
    ∧ PostDiagnostics.parse_transcript_recent (some (lines.filter keepLine)) lookback =
        PostDiagnostics.parse_transcript_recent (some lines) lookback
    ∧ PostCodeReview.parse_transcript_recent (some (lines.filter keepLine)) lookback =
        PostCodeReview.parse_transcript_recent (some lines) lookback
    ∧ (PostDiagnostics.parse_transcript_recent (some lines) lookback = Except.error () ↔
        Line.scalar ∈ lines)
    ∧ (Line.scalar ∉ lines → (toolUseEntriesOf lines).length ≤ lookback →
        PostDiagnostics.parse_transcript_recent (some lines) lookback =
          Except.ok (toolUseEntriesOf lines))
    ∧ ((lines.filterMap lineVal).length ≤ lookback →
        PostCodeReview.parse_transcript_recent (some lines) lookback =
          lines.filterMap lineVal) := by
  refine ⟨rfl, rfl, ?_, ?_, ?_, ?_, ?_⟩
  · simp only [PostDiagnostics.parse_transcript_recent, readEntries_filter]
  · simp only [PostCodeReview.parse_transcript_recent, filterMap_lineVal_filter]
  · simp only [PostDiagnostics.parse_transcript_recent]
    rw [← readEntries_error_iff lines []]
    cases PostDiagnostics.readEntries lines [] <;> simp [Except.map]
  · intro hns hlen
    simp only [PostDiagnostics.parse_transcript_recent, readEntries_ok lines hns []]
    simp [Except.map, Nat.sub_eq_zero_of_le hlen]
  · intro hlen
    simp [PostCodeReview.parse_transcript_recent, Nat.sub_eq_zero_of_le hlen]

/-- Witness for C7: the amended robustness applied to a concrete transcript
of one undecodable line between two records. -/
theorem c7_reader_robustness_witness :
    PostDiagnostics.parse_transcript_recent
        (some [Line.obj todoWriteEntry, Line.malformed, Line.obj bashEntry]) 100 =
      Except.ok [todoWriteEntry, bashEntry] :=
  (c7_reader_robustness [Line.obj todoWriteEntry, Line.malformed, Line.obj bashEntry]
      100).2.2.2.2.2.1 (by decide) (by decide)

/-! ### Claim C8: which snapshot the stage-1 detector evaluates -/

/-- `find?` over an appended list looks in the first part first. -/
theorem find?_append_cases {α : Type} (p : α → Bool) (l1 l2 : List α) :
    (l1 ++ l2).find? p =
      match l1.find? p with
      | some x => some x
      | none => l2.find? p := by
  induction l1 with
  | nil => simp
  | cons a rest ih =>
      by_cases h : p a = true
      · simp [List.find?_cons, h]
      · simp only [Bool.not_eq_true] at h
        simp [List.find?_cons, h, ih]

/-- A line carrying no object does not change the latest non-empty
snapshot. -/
theorem lastNonEmptySnapshot_cons_skip (l : Line) (rest : List Line)
    (h : lineObj l = none) :
    lastNonEmptySnapshot (l :: rest) = lastNonEmptySnapshot rest := by
  simp [lastNonEmptySnapshot, objsOf, List.filterMap_cons, h]

/-- Prepending an object record: the latest non-empty snapshot of the rest
wins; the new record only counts when the rest has none. -/
theorem lastNonEmptySnapshot_cons_obj (e : Entry) (rest : List Line) :
    lastNonEmptySnapshot (Line.obj e :: rest) =
      (lastNonEmptySnapshot rest).elim
        (if isNonEmptyTodoUse e then some ((e.input.todos).getD []) else none) some := by
  simp only [lastNonEmptySnapshot, objsOf, List.filterMap_cons, lineObj, List.reverse_cons]
  rw [find?_append_cases]
  cases h : (List.filterMap lineObj rest).reverse.find? isNonEmptyTodoUse with
  | some v => simp [h]
  | none =>
      by_cases he : isNonEmptyTodoUse e = true
      · simp [h, List.find?_cons, he]
      · simp only [Bool.not_eq_true] at he
        simp [h, List.find?_cons, he]

/-- On a transcript without non-object lines, the stage-1 scanning loop
computes the latest non-empty snapshot, falling back to its accumulator. -/
theorem scanTodos_spec (lines : List Line) :
    Line.scalar ∉ lines → ∀ last,
      PostTodowrite.scanTodos lines last =
        Except.ok ((lastNonEmptySnapshot lines).elim last some) := by
  induction lines with
  | nil => intro _ last; rfl
  | cons l rest ih =>
      intro hns last
      have hns' : Line.scalar ∉ rest := fun h => hns (List.mem_cons_of_mem _ h)
      cases l with
      | blank =>
          rw [PostTodowrite.scanTodos, ih hns' last,
            lastNonEmptySnapshot_cons_skip Line.blank rest rfl]
      | malformed =>
          rw [PostTodowrite.scanTodos, ih hns' last,
            lastNonEmptySnapshot_cons_skip Line.malformed rest rfl]
      | scalar => exact absurd (List.mem_cons_self _ _) hns
      | obj e =>
          rw [lastNonEmptySnapshot_cons_obj]
          simp only [PostTodowrite.scanTodos]
          by_cases ht : (e.type == some "tool_use") = true
          · by_cases hn : (e.name == some "TodoWrite") = true
            · by_cases hemp : ((e.input.todos).getD []).isEmpty = true
              · have hq : isNonEmptyTodoUse e = false := by
                  simp [isNonEmptyTodoUse, isTodoUse, ht, hn, hemp]
                rw [if_pos ht, if_pos hn, if_pos hemp, ih hns' last, hq]
                cases lastNonEmptySnapshot rest <;> simp
              · have hq : isNonEmptyTodoUse e = true := by
                  simp only [Bool.not_eq_true] at hemp
                  simp [isNonEmptyTodoUse, isTodoUse, ht, hn, hemp]
                rw [if_pos ht, if_pos hn, if_neg hemp,
                  ih hns' (some ((e.input.todos).getD [])), hq]
                cases lastNonEmptySnapshot rest <;> simp
            · rw [if_pos ht, if_neg hn, ih hns' last]
              have hq : isNonEmptyTodoUse e = false := by
                simp only [Bool.not_eq_true] at hn
                simp [isNonEmptyTodoUse, isTodoUse, hn]
              rw [hq]
              cases lastNonEmptySnapshot rest <;> simp
          · rw [if_neg ht, ih hns' last]
            have hq : isNonEmptyTodoUse e = false := by
              simp only [Bool.not_eq_true] at ht
              simp [isNonEmptyTodoUse, isTodoUse, ht]
            rw [hq]
            cases lastNonEmptySnapshot rest <;> simp

/-- On a transcript without non-object lines, `parse_transcript` returns
exactly the latest non-empty snapshot. -/
theorem parse_transcript_spec (lines : List Line) (h : Line.scalar ∉ lines) :
    PostTodowrite.parse_transcript (some lines) = Except.ok (lastNonEmptySnapshot lines) := by
  rw [PostTodowrite.parse_transcript, scanTodos_spec lines h none]
  cases lastNonEmptySnapshot lines <;> simp

/-- Counterexample for C8 as stated: two transcripts whose most recent
task-list-update event carries the same (empty) snapshot, on which the
stage-1 detector nevertheless decides differently — the script skips the
empty snapshot and fires on the earlier completed one, although
`all_tasks_completed` is false on the empty snapshot the claim says the
decision is computed from. -/
theorem c8_counterexample :
    lastEventSnapshot [Line.obj todoWriteDoneEntry, Line.obj todoWriteEmptyEntry] =
        lastEventSnapshot [Line.obj todoWriteEmptyEntry]
    ∧ lastEventSnapshot [Line.obj todoWriteDoneEntry, Line.obj todoWriteEmptyEntry] = some []
    ∧ (PostTodowrite.main
        (some { tool_name := some "TodoWrite", transcript_path := some "t" })
        (fun _ => some [Line.obj todoWriteDoneEntry, Line.obj todoWriteEmptyEntry])).triggering
        = true
    ∧ (PostTodowrite.main
        (some { tool_name := some "TodoWrite", transcript_path := some "t" })
        (fun _ => some [Line.obj todoWriteEmptyEntry])).triggering = false
    ∧ PostTodowrite.all_tasks_completed [] = false :=
  ⟨rfl, rfl, rfl, rfl, rfl⟩

/-- C8 (amended): the stage-1 detector evaluates its completion predicate
on the snapshot of the most recent task-list-update event whose snapshot
is non-empty (task-list updates carrying an empty or missing `todos` list
are skipped); on transcripts free of non-object lines, the decision
depends only on that latest non-empty snapshot. -/
theorem c8_snapshot_replacement :
    (∀ lines : List Line, Line.scalar ∉ lines →
      PostTodowrite.parse_transcript (some lines) = Except.ok (lastNonEmptySnapshot lines))
    ∧ (∀ (input_data : HookInput) (l l' : List Line),
        Line.scalar ∉ l → Line.scalar ∉ l' →
        lastNonEmptySnapshot l = lastNonEmptySnapshot l' →
        PostTodowrite.main (some input_data) (fun _ => some l) =
          PostTodowrite.main (some input_data) (fun _ => some l')) := by
  refine ⟨parse_transcript_spec, ?_⟩
  intro input_data l l' hl hl' hsnap
  simp only [PostTodowrite.main]
  rw [parse_transcript_spec l hl, parse_transcript_spec l' hl', hsnap]

/-- Witness for C8 (amended): a transcript with a trailing undecodable line
decides exactly as the same transcript without it, their latest non-empty
snapshots being equal. -/
theorem c8_snapshot_replacement_witness :
    PostTodowrite.main
        (some { tool_name := some "TodoWrite", transcript_path := some "t" })
        (fun _ => some [Line.obj todoWriteDoneEntry, Line.malformed]) =
      PostTodowrite.main
        (some { tool_name := some "TodoWrite", transcript_path := some "t" })
        (fun _ => some [Line.obj todoWriteDoneEntry]) :=
  c8_snapshot_replacement.2
    { tool_name := some "TodoWrite", transcript_path := some "t" }
    [Line.obj todoWriteDoneEntry, Line.malformed] [Line.obj todoWriteDoneEntry]
    (by decide) (by decide) rfl

/-! ### Claim C9: determinism -/

/-- C9: each detector is a pure function of its request payload and the
content the file system gives for the single transcript path named by the
request: two runs over the same pair produce identical outcomes, and the
outcome does not depend on any other state. -/
theorem c9_deterministic (stdin : Option HookInput)
    (fs fsB : String → Option (List Line))
    (h : fs (requestPath stdin) = fsB (requestPath stdin)) :
    PostTodowrite.main stdin fs = PostTodowrite.main stdin fsB
    ∧ PostDiagnostics.main stdin fs = PostDiagnostics.main stdin fsB
    ∧ PostCodeReview.main stdin fs = PostCodeReview.main stdin fsB := by
  cases stdin with
  | none => exact ⟨rfl, rfl, rfl⟩
  | some input_data =>
      have hp : fs (input_data.transcript_path.getD "") =
          fsB (input_data.transcript_path.getD "") := h
      refine ⟨?_, ?_, ?_⟩
      · simp only [PostTodowrite.main]
        rw [hp]
      · simp only [PostDiagnostics.main]
        rw [hp]
      · simp only [PostCodeReview.main]
        rw [hp]

/-- Witness for C9: two runs of the stage-2 detector over an identical
request/log pair agree. -/
theorem c9_deterministic_witness :
    PostDiagnostics.main
        (some { tool_name := some "Bash", transcript_path := some "t" })
        (fun _ => some [Line.obj todoWriteEntry]) =
      PostDiagnostics.main
        (some { tool_name := some "Bash", transcript_path := some "t" })
        (fun _ => some [Line.obj todoWriteEntry]) :=
  (c9_deterministic (some { tool_name := some "Bash", transcript_path := some "t" })
      (fun _ => some [Line.obj todoWriteEntry])
      (fun _ => some [Line.obj todoWriteEntry]) rfl).2.1
